import Mathlib

/-!
Verification of the Face Identity Matching Engine of the
`face-recognition-auth` repository, shallowly embedded in Lean 4.

The embedding models, faithfully to the Python source:

* `services/face_recognition_service.py`
  - the face cache (`_face_cache`, a dict from filename to
    `{encoding, file_path}`, iterated in insertion order) as a list of
    `CacheEntry`;
  - `fr.compare_faces`/`fr.face_distance` (the `face_recognition`
    library: `list(face_distance(known, probe) <= tolerance)` with
    `face_distance = np.linalg.norm(known - probe, axis=1)`, which
    raises on mismatched vector lengths) as `compareFaces`, working
    with the exact square of the Euclidean distance: for a real
    tolerance `t`, `sqrt s <= t` iff `0 <= t` and `s <= t ^ 2`
    (proved below as `compareFaces_iff_sqrt`), so the squared
    comparison is an exact translation of the library's test;
  - `recognize_face`'s scan over the cache (returning on the first
    candidate whose comparison succeeds, swallowing per-candidate
    exceptions and continuing) as `recognizeScan`;
  - `_update_face_cache` (TTL check, `clear()`, `os.listdir`, the
    extension filter, per-file failures skipped, outer `except` on an
    enumeration failure) as `updateFaceCache`, with the listing result
    supplied as an `Except` value and each listed file paired with
    `Option Embedding` (`none` for an unreadable file or one without
    encodings);
  - `encode_face_encoding` / `decode_face_encoding`
    (`json.dumps(encoding.tolist())` / `np.array(json.loads(s))`) at
    the JSON-document level: Python's `json` round-trips finite floats
    exactly (shortest-repr serialization), so numbers are carried
    exactly as rationals in a `JsonValue` tree.

* `services/face_service.py`, `routes/face.py` and `routes/api.py`
  - `FaceService.register_face` (detect, save, cache upsert, then the
    `if not encoding:` check that fails or raises on every
    `get_face_encoding` result, so no row is ever persisted on this
    path) as `faceServiceRegister`, with the external detection outcome
    of each image supplied as an `ImageOutcome`;
  - the session `/register` route's loop and its count checks as
    `registerFaceLoop` / `registerFaceRoute`;
  - the OAuth2 API enrollment route `register_user_face` (stage rows
    with `db.session.add`, `is_primary=(i == 0)` on the batch index,
    rollback below 3 successes, commit otherwise) as
    `apiRegisterLoop` / `apiRegisterRoute`;
  - `FaceService.recognize_face` plus the `/recognize` route
    (repository lookup by file path, any unsuccessful service result
    mapped to a 404 "Face not recognized") as `serviceRecognizeFace` /
    `recognizeFaceRoute`.

* `models.py`: the `FaceImage` row (`user_id`, `file_path`,
  `encoding_data`, `is_primary` defaulting to `False`) as
  `FaceImageRow`.

Embeddings are vectors of exact rationals: the Python code computes
with IEEE floats, and the claims under study concern control flow,
ordering and threshold semantics, none of which depend on rounding.
-/

/-- A face embedding: a real-valued vector, carried exactly. -/
abbrev Embedding := List ℚ

/-- One entry of `_face_cache`: the dict key (filename) and the stored
`{encoding, file_path}` value. The dict iterates in insertion order, so a
snapshot is a list. -/
structure CacheEntry where
  filename : String
  encoding : Embedding
  filePath : String
deriving DecidableEq

/-- Square of the Euclidean distance between two embeddings, summed
elementwise (`np.linalg.norm(a - b)` squared for equal-length vectors;
callers guard the lengths). -/
def faceDistSq : Embedding → Embedding → ℚ
  | a :: as, b :: bs => (a - b) ^ 2 + faceDistSq as bs
  | _, _ => 0

/-- `fr.compare_faces([known], probe, tolerance)[0]`: numpy raises a
broadcast error when the vector lengths differ; otherwise the candidate
matches iff `face_distance <= tolerance`, translated exactly to the
squared comparison `0 <= tolerance` and `distSq <= tolerance ^ 2`
(see `compareFaces_iff_sqrt`). -/
def compareFaces (known probe : Embedding) (tol : ℚ) : Except String Bool :=
  if known.length = probe.length then
    .ok (decide (0 ≤ tol ∧ faceDistSq known probe ≤ tol ^ 2))
  else
    .error "operands could not be broadcast together"

/-- The dict returned by `recognize_face` on a match: `filename`,
`file_path`, and the exact datum behind `confidence`: the code stores
`confidence = 1 - distance`, i.e. `1 - Real.sqrt distSq`. -/
structure RecognitionMatch where
  filename : String
  filePath : String
  distSq : ℚ
deriving DecidableEq

/-- The scan of `recognize_face` over the cached faces (source lines
181-204): for each entry in iteration order, run `compare_faces`; a
per-candidate exception is caught, logged and the loop continues; on the
first `True` the entry is returned together with its distance; if no
entry matches the scan returns `None`. -/
def recognizeScan (cache : List CacheEntry) (probe : Embedding) (tol : ℚ) :
    Option RecognitionMatch :=
  match cache with
  | [] => none
  | e :: rest =>
    match compareFaces e.encoding probe tol with
    | .error _ => recognizeScan rest probe tol
    | .ok false => recognizeScan rest probe tol
    | .ok true => some ⟨e.filename, e.filePath, faceDistSq e.encoding probe⟩

/-- A JSON document, with numbers carried exactly (Python's `json`
round-trips finite floats exactly via shortest-repr serialization, so the
string layer is modelled by the document tree). -/
inductive JsonValue where
  | num (q : ℚ)
  | arr (elems : List JsonValue)

/-- `encode_face_encoding`: `json.dumps(encoding.tolist())` — the
embedding becomes a JSON array of its numbers. -/
def encode_face_encoding (e : Embedding) : JsonValue :=
  .arr (e.map .num)

/-- A JSON leaf read back as a number, when it is one. -/
def jsonToRat : JsonValue → Option ℚ
  | .num q => some q
  | _ => none

/-- Elementwise numeric read-back of a JSON array's items. -/
def decodeNums : List JsonValue → Option (List ℚ)
  | [] => some []
  | v :: vs =>
    match jsonToRat v, decodeNums vs with
    | some q, some qs => some (q :: qs)
    | _, _ => none

/-- `decode_face_encoding`: `np.array(json.loads(encoding_str))` — a JSON
array of numbers becomes the embedding, elementwise. -/
def decode_face_encoding : JsonValue → Option Embedding
  | .arr elems => decodeNums elems
  | _ => none

/-- A row of the `face_images` table (`models.py`, class `FaceImage`):
`user_id`, `file_path`, `encoding_data` (the JSON-encoded embedding) and
`is_primary`, whose column default is `False`. -/
structure FaceImageRow where
  userId : Nat
  filePath : String
  encodingData : JsonValue
  isPrimary : Bool

/-- The mutable state the enrollment path touches: the persisted
`FaceImage` rows (in insertion order; `FaceImageRepository.create` adds
and commits one row at a time) and the in-memory `_face_cache`. -/
structure EngineState where
  rows : List FaceImageRow
  cache : List CacheEntry

/-- Python dict assignment `cache[filename] = entry`: replace the value
in place when the key exists, else append (insertion order). -/
def cacheUpsert (cache : List CacheEntry) (e : CacheEntry) : List CacheEntry :=
  if cache.any (fun c => c.filename == e.filename) then
    cache.map (fun c => if c.filename == e.filename then e else c)
  else
    cache ++ [e]

/-- Outcome of the external vision pipeline on one submitted image:
* `invalid`: base64/image validation failed, or `detect_faces` returned
  `None` (zero or several faces) — nothing touched;
* `detectedOnly`: `detect_faces` succeeded (file saved, cache upserted)
  but `get_face_encoding` then returned `None`;
* `processed`: `detect_faces` succeeded (file saved, cache upserted) and
  `get_face_encoding` returned the 128-element encoding array. -/
inductive ImageOutcome where
  | invalid
  | detectedOnly (filename : String) (enc : Embedding)
  | processed (filename : String) (enc : Embedding)

/-- `FaceService.register_face` for one image (given the vision
outcome): `detect_faces` saves the file under `faces_dir` and upserts
`_face_cache[filename] = {encoding, file_path}`; then the result of
`get_face_encoding` hits `if not encoding:` (face_service.py line 41) —
`None` fails that check and returns the encode error, while a real
multi-element numpy array makes `not encoding` raise `ValueError`
("the truth value of an array with more than one element is
ambiguous"), caught by the `except` at line 64. Either way the function
returns failure and `face_image_repository.create` (line 51) is never
reached: this path never persists a row, only the cache upsert and the
saved file remain. Returns whether the registration succeeded (always
`false` once detection ran). -/
def faceServiceRegister (userId : Nat) (facesDir : String) (oc : ImageOutcome)
    (st : EngineState) : Bool × EngineState :=
  match oc with
  | .invalid => (false, st)
  | .detectedOnly fn enc =>
    (false, { st with cache := cacheUpsert st.cache ⟨fn, enc, facesDir ++ "/" ++ fn⟩ })
  | .processed fn enc =>
    (false, { st with cache := cacheUpsert st.cache ⟨fn, enc, facesDir ++ "/" ++ fn⟩ })

/-- The per-image loop of the `/register` route (`routes/face.py` lines
50-74): each image is processed independently, failures are logged and
skipped, and `successful_images` counts the successes. -/
def registerFaceLoop (userId : Nat) (facesDir : String) (outcomes : List ImageOutcome)
    (st : EngineState) : Nat × EngineState :=
  match outcomes with
  | [] => (0, st)
  | oc :: rest =>
    let r := faceServiceRegister userId facesDir oc st
    let res := registerFaceLoop userId facesDir rest r.2
    (if r.1 then res.1 + 1 else res.1, res.2)

/-- Responses the face routes can produce, mirroring
`services/error_handler.py` (status codes 400/404/409/500) and the two
success payloads of `routes/face.py`. `recognized` carries the exact
square of the distance behind the reported `confidence = 1 - distance`. -/
inductive ApiResponse where
  | validationError (details : List String)
  | notFoundError (msg : String)
  | conflictError (msg : String)
  | serverError (msg : String)
  | registered (imagesProcessed : Nat) (userId : Nat)
  | recognized (userId : Nat) (distSq : ℚ) (filename : String)
deriving DecidableEq

/-- The tail of the `/register` route, after the loop: given
`(successful_images, state)`, fewer than 3 successes is a validation
error and otherwise a 201 payload — the state mutated by the loop is
returned as is either way. -/
def registerFinish (userId : Nat) (res : Nat × EngineState) : ApiResponse × EngineState :=
  if res.1 < 3 then
    (.validationError ["Only " ++ toString res.1 ++
      " valid images processed, minimum 3 required"], res.2)
  else
    (.registered res.1 userId, res.2)

/-- The session `/register` route (`routes/face.py` lines 8-89), from
the count checks on (session and user lookup already passed): fewer than
3 or more than `MAX_IMAGES_PER_USER` images is a validation error before
any processing; an owner with existing rows is a conflict; then each
image is processed in turn (each call mutating the cache as it goes), and
only afterwards is `successful_images < 3` turned into a validation
error — the state mutated by the loop is returned as is in every
branch. -/
def registerFaceRoute (userId maxImages : Nat) (facesDir : String)
    (outcomes : List ImageOutcome) (st : EngineState) : ApiResponse × EngineState :=
  if outcomes.length < 3 then
    (.validationError ["At least 3 images required, got " ++ toString outcomes.length], st)
  else if maxImages < outcomes.length then
    (.validationError ["Maximum " ++ toString maxImages ++ " images allowed, got " ++
      toString outcomes.length], st)
  else if st.rows.any (fun r => r.userId == userId) then
    (.conflictError "Face images already registered for this user", st)
  else
    registerFinish userId (registerFaceLoop userId facesDir outcomes st)

/-- The extension filter of `_update_face_cache`:
`filename.lower().endswith((".png", ".jpg", ".jpeg"))`. -/
def isImageFile (fn : String) : Bool :=
  fn.toLower.endsWith ".png" || fn.toLower.endsWith ".jpg" || fn.toLower.endsWith ".jpeg"

/-- The rebuild loop of `_update_face_cache` over a directory listing,
run on the accumulator `acc` (started from the just-cleared dict): each
listed file passing the extension filter and yielding an encoding is
inserted; a file that cannot be read or has no encodings (`none`) is
skipped and the loop continues. -/
def rebuildEntries (facesDir : String) :
    List (String × Option Embedding) → List CacheEntry → List CacheEntry
  | [], acc => acc
  | (fn, r) :: rest, acc =>
    if isImageFile fn then
      match r with
      | some enc =>
        rebuildEntries facesDir rest (cacheUpsert acc ⟨fn, enc, facesDir ++ "/" ++ fn⟩)
      | none => rebuildEntries facesDir rest acc
    else rebuildEntries facesDir rest acc

/-- `_update_face_cache` (source lines 36-72), with the filesystem
interactions supplied as values: if the TTL has not elapsed, nothing
changes; otherwise the cache is cleared FIRST, then the directory
existence check and `os.listdir` run — a missing directory or a listing
failure (the outer `except`) leaves the already-cleared cache empty and
does not advance `_last_cache_update`; on a successful listing the cache
is rebuilt and `_last_cache_update` becomes `now`. Returns the new
`(cache, last_update)` pair. -/
def updateFaceCache (now lastUpdate ttl : ℚ) (facesDir : String) (dirExists : Bool)
    (listing : Except String (List (String × Option Embedding)))
    (cache : List CacheEntry) : List CacheEntry × ℚ :=
  if now - lastUpdate < ttl then (cache, lastUpdate)
  else if !dirExists then ([], lastUpdate)
  else
    match listing with
    | .error _ => ([], lastUpdate)
    | .ok files => (rebuildEntries facesDir files [], now)

/-- Result dict of `FaceService.recognize_face` (`services/face_service.py`
lines 68-99): either `{success: False, error}` or
`{success: True, user_id, confidence, filename}` (distance carried as its
exact square). -/
inductive ServiceRecognitionResult where
  | failure (error : String)
  | success (userId : Nat) (distSq : ℚ) (filename : String)
deriving DecidableEq

/-- `FaceService.recognize_face`: a `None` from the recognition service
is `"Face not recognized"`; on a match, the row is looked up by the
cache's `file_path` (`find_by_file_path`, first row in insertion order);
a missing row is `"Face not found in database"`; otherwise the row's
`user_id` is returned with the match's confidence and filename. -/
def serviceRecognizeFace (recog : Option RecognitionMatch) (rows : List FaceImageRow) :
    ServiceRecognitionResult :=
  match recog with
  | none => .failure "Face not recognized"
  | some m =>
    match rows.find? (fun r => r.filePath == m.filePath) with
    | none => .failure "Face not found in database"
    | some row => .success row.userId m.distSq m.filename

/-- The `/recognize` route (`routes/face.py` lines 91-140), from the
recognition call on: ANY unsuccessful service result is mapped to
`handle_not_found_error("Face not recognized")` (404); on success the
user is looked up (404 `"User not found"` when absent) and a 200 payload
with the user, confidence and filename is returned. -/
def recognizeFaceRoute (recog : Option RecognitionMatch) (rows : List FaceImageRow)
    (users : List Nat) : ApiResponse :=
  match serviceRecognizeFace recog rows with
  | .failure _ => .notFoundError "Face not recognized"
  | .success uid distSq fn =>
    match users.find? (fun u => u == uid) with
    | none => .notFoundError "User not found"
    | some u => .recognized u distSq fn

/-- The `_face_cache` after an enrollment loop: one upsert per image
whose `detect_faces` succeeded, in batch order. -/
def cacheAfter (facesDir : String) (outcomes : List ImageOutcome)
    (cache : List CacheEntry) : List CacheEntry :=
  match outcomes with
  | [] => cache
  | .invalid :: rest => cacheAfter facesDir rest cache
  | .detectedOnly fn enc :: rest =>
    cacheAfter facesDir rest (cacheUpsert cache ⟨fn, enc, facesDir ++ "/" ++ fn⟩)
  | .processed fn enc :: rest =>
    cacheAfter facesDir rest (cacheUpsert cache ⟨fn, enc, facesDir ++ "/" ++ fn⟩)

/-- The squared distance is a sum of squares, hence nonnegative. -/
theorem faceDistSq_nonneg (a b : Embedding) : 0 ≤ faceDistSq a b := by
  induction a generalizing b with
  | nil => cases b <;> simp [faceDistSq]
  | cons x xs ih =>
    cases b with
    | nil => simp [faceDistSq]
    | cons y ys =>
      have h1 : (0 : ℚ) ≤ (x - y) ^ 2 := sq_nonneg _
      have h2 := ih ys
      calc (0 : ℚ) ≤ (x - y) ^ 2 + faceDistSq xs ys := by linarith
        _ = faceDistSq (x :: xs) (y :: ys) := by rw [faceDistSq]

/-- The squared comparison used by `compareFaces` is exactly the
library's test `face_distance <= tolerance` on the real Euclidean
distance. -/
theorem compareFaces_iff_sqrt (d tol : ℚ) :
    (0 ≤ tol ∧ d ≤ tol ^ 2) ↔ Real.sqrt (d : ℝ) ≤ (tol : ℝ) := by
  rw [Real.sqrt_le_iff]
  constructor
  · rintro ⟨h1, h2⟩
    exact ⟨by exact_mod_cast h1, by exact_mod_cast h2⟩
  · rintro ⟨h1, h2⟩
    exact ⟨by exact_mod_cast h1, by exact_mod_cast h2⟩

/-- Any match returned by the scan was accepted by the threshold test:
the tolerance is nonnegative and the stored squared distance is
nonnegative and at most the squared tolerance. -/
theorem recognizeScan_some (cache : List CacheEntry) (probe : Embedding) (tol : ℚ)
    (m : RecognitionMatch) (h : recognizeScan cache probe tol = some m) :
    0 ≤ tol ∧ 0 ≤ m.distSq ∧ m.distSq ≤ tol ^ 2 := by
  induction cache with
  | nil => simp [recognizeScan] at h
  | cons e rest ih =>
    cases hc : compareFaces e.encoding probe tol with
    | error s =>
      rw [recognizeScan, hc] at h
      exact ih h
    | ok b =>
      cases b with
      | false =>
        rw [recognizeScan, hc] at h
        exact ih h
      | true =>
        rw [recognizeScan, hc] at h
        have hP : 0 ≤ tol ∧ faceDistSq e.encoding probe ≤ tol ^ 2 := by
          rw [compareFaces] at hc
          split at hc
          · simpa using hc
          · simp at hc
        have hm : (⟨e.filename, e.filePath, faceDistSq e.encoding probe⟩ : RecognitionMatch)
            = m := by simpa using h
        rw [← hm]
        exact ⟨hP.1, faceDistSq_nonneg _ _, hP.2⟩

/-- Claim C10: encoding and decoding a face embedding round-trips — for
every embedding vector `e`, `decode_face_encoding (encode_face_encoding e)`
yields `e` elementwise. -/
theorem decode_encode_face_encoding_roundtrip (e : Embedding) :
    decode_face_encoding (encode_face_encoding e) = some e := by
  rw [encode_face_encoding, decode_face_encoding]
  induction e with
  | nil => rfl
  | cons a as ih =>
    rw [List.map_cons, decodeNums, ih]
    rfl

/-- Claim C1 (refuted as a description of the code; the spec's design
notes flag this as a latent bug of the source): on a snapshot holding
candidate `a.jpg` at distance `1/2` BEFORE candidate `b.jpg` at distance
`3/10`, under tolerance `3/5`, `recognize_face` returns `a.jpg` — the
first matching candidate encountered during the scan — even though
`b.jpg` also matches and is strictly closer. The claimed minimum-distance
selection does not hold. -/
theorem recognizeScan_returns_first_not_min :
    recognizeScan
        [⟨"a.jpg", [1/2], "./faces/a.jpg"⟩, ⟨"b.jpg", [3/10], "./faces/b.jpg"⟩]
        [0] (3/5) =
      some ⟨"a.jpg", "./faces/a.jpg", 1/4⟩ ∧
    compareFaces [3/10] [0] (3/5) = .ok true ∧
    faceDistSq [3/10] [0] < faceDistSq [1/2] [0] := by
  refine ⟨?_, ?_, ?_⟩ <;> norm_num [recognizeScan, compareFaces, faceDistSq]

/-- Claim C2 (refuted as a description of the code; a direct consequence
of the first-match scan the spec's design notes flag as a latent bug):
permuting the snapshot changes the selected identifier — the same two
matching candidates yield `a.jpg` in one iteration order and `b.jpg` in
the other. -/
theorem recognizeScan_order_dependent :
    (recognizeScan
        [⟨"a.jpg", [1/2], "./faces/a.jpg"⟩, ⟨"b.jpg", [3/10], "./faces/b.jpg"⟩]
        [0] (3/5)).map RecognitionMatch.filename = some "a.jpg" ∧
    (recognizeScan
        [⟨"b.jpg", [3/10], "./faces/b.jpg"⟩, ⟨"a.jpg", [1/2], "./faces/a.jpg"⟩]
        [0] (3/5)).map RecognitionMatch.filename = some "b.jpg" := by
  constructor <;> norm_num [recognizeScan, compareFaces, faceDistSq]

/-- Claim C5, counterexample: a candidate whose vector length differs
from the probe's does NOT make the operation fail: the raised comparison
error is swallowed, the candidate is skipped, and the scan continues to
the next candidate, which is returned — no `DimensionMismatch` error
reaches the caller. -/
theorem recognizeScan_dimension_mismatch_cex :
    recognizeScan
        [⟨"m.jpg", [1, 2], "./faces/m.jpg"⟩, ⟨"c.jpg", [0], "./faces/c.jpg"⟩]
        [0] (3/5) =
      some ⟨"c.jpg", "./faces/c.jpg", 0⟩ := by
  norm_num [recognizeScan, compareFaces, faceDistSq]

/-- Claim C5, amended: for every comparison between the probe and a
cached candidate of different vector length, the comparison raises, the
exception is caught at candidate granularity, and the scan continues
exactly as if the candidate were absent; no error is surfaced. -/
theorem recognizeScan_skips_mismatched_candidate (e : CacheEntry)
    (rest : List CacheEntry) (probe : Embedding) (tol : ℚ)
    (hlen : e.encoding.length ≠ probe.length) :
    recognizeScan (e :: rest) probe tol = recognizeScan rest probe tol := by
  rw [recognizeScan, compareFaces, if_neg hlen]

/-- Witness for the amended claim C5 at a concrete mismatched candidate. -/
theorem recognizeScan_skips_mismatched_candidate_witness :
    recognizeScan [⟨"m.jpg", [1, 2], "./faces/m.jpg"⟩] [0] 1 =
      recognizeScan [] [0] 1 :=
  recognizeScan_skips_mismatched_candidate ⟨"m.jpg", [1, 2], "./faces/m.jpg"⟩
    [] [0] 1 (by decide)

/-- Claim C6: for equal-length vectors the acceptance test is exactly
`distance <= tolerance` on the real Euclidean distance — inclusive at the
boundary — and a candidate whose distance strictly exceeds the tolerance
is rejected (compared as `False`, not an error). -/
theorem compareFaces_inclusive_threshold (known probe : Embedding) (tol : ℚ)
    (hlen : known.length = probe.length) :
    (compareFaces known probe tol = .ok true ↔
      Real.sqrt ((faceDistSq known probe : ℝ)) ≤ (tol : ℝ)) ∧
    (¬ Real.sqrt ((faceDistSq known probe : ℝ)) ≤ (tol : ℝ) →
      compareFaces known probe tol = .ok false) := by
  constructor
  · rw [compareFaces, if_pos hlen]
    simp only [Except.ok.injEq, decide_eq_true_eq]
    exact compareFaces_iff_sqrt _ _
  · intro hlt
    rw [compareFaces, if_pos hlen]
    simp only [Except.ok.injEq, decide_eq_false_iff_not]
    exact fun hP => hlt ((compareFaces_iff_sqrt _ _).mp hP)

/-- Witness for claim C6: a candidate at distance exactly the tolerance
(`3/5`) is accepted. -/
theorem compareFaces_inclusive_threshold_witness :
    compareFaces [0] [3/5] (3/5) = .ok true :=
  ((compareFaces_inclusive_threshold [0] [3/5] (3/5) rfl).1).mpr (by
    have h : ((faceDistSq [0] [3/5] : ℚ) : ℝ) = (3/5 : ℝ) ^ 2 := by
      norm_num [faceDistSq]
    rw [h, Real.sqrt_sq (by norm_num)]
    norm_num)

/-- Claim C7, counterexample: the code never clamps. With tolerance `2`
a candidate at distance `3/2` is a match and the reported confidence
`1 - distance = -1/2` falls outside `[0, 1]` — the claimed clamping to
the valid range does not exist. -/
theorem recognizeScan_confidence_not_clamped_cex :
    recognizeScan [⟨"far.jpg", [3/2], "./faces/far.jpg"⟩] [0] 2 =
      some ⟨"far.jpg", "./faces/far.jpg", 9/4⟩ ∧
    1 - Real.sqrt ((9/4 : ℚ) : ℝ) < 0 := by
  constructor
  · norm_num [recognizeScan, compareFaces, faceDistSq]
  · have h : ((9/4 : ℚ) : ℝ) = (3/2 : ℝ) ^ 2 := by norm_num
    rw [h, Real.sqrt_sq (by norm_num)]
    norm_num

/-- Claim C7, amended: the confidence is `1 - distance` with no
clamping; whenever the tolerance is at most `1` (as with the default
`0.6`), every match the scan returns has confidence in `[0, 1]`. -/
theorem recognizeScan_confidence_bounds (cache : List CacheEntry)
    (probe : Embedding) (tol : ℚ) (m : RecognitionMatch)
    (h : recognizeScan cache probe tol = some m) (htol : tol ≤ 1) :
    0 ≤ 1 - Real.sqrt ((m.distSq : ℝ)) ∧ 1 - Real.sqrt ((m.distSq : ℝ)) ≤ 1 := by
  obtain ⟨h0, hd0, hd⟩ := recognizeScan_some cache probe tol m h
  constructor
  · have hs : Real.sqrt ((m.distSq : ℝ)) ≤ (tol : ℝ) :=
      (compareFaces_iff_sqrt m.distSq tol).mp ⟨h0, hd⟩
    have h1 : (tol : ℝ) ≤ 1 := by exact_mod_cast htol
    linarith
  · have hnn : 0 ≤ Real.sqrt ((m.distSq : ℝ)) := Real.sqrt_nonneg _
    linarith

/-- Witness for the amended claim C7 at a concrete exact match under
tolerance `1/2`. -/
theorem recognizeScan_confidence_bounds_witness :
    0 ≤ 1 - Real.sqrt (((⟨"a.jpg", "./faces/a.jpg", 0⟩ : RecognitionMatch).distSq : ℝ)) ∧
    1 - Real.sqrt (((⟨"a.jpg", "./faces/a.jpg", 0⟩ : RecognitionMatch).distSq : ℝ)) ≤ 1 :=
  recognizeScan_confidence_bounds [⟨"a.jpg", [0], "./faces/a.jpg"⟩] [0] (1/2)
    ⟨"a.jpg", "./faces/a.jpg", 0⟩
    (by norm_num [recognizeScan, compareFaces, faceDistSq]) (by norm_num)

/-- Claim C4, counterexample: the rebuild clears the store BEFORE
enumerating, so when the listing itself fails the previous content is
NOT retained: a reader after the failed refresh sees an empty cache, not
the entry that was present before. -/
theorem updateFaceCache_enum_failure_cex :
    updateFaceCache 400 0 300 "./faces" true (.error "boom")
        [⟨"a.jpg", [0], "./faces/a.jpg"⟩] = ([], 0) ∧
    ([] : List CacheEntry) ≠ [⟨"a.jpg", [0], "./faces/a.jpg"⟩] := by
  constructor
  · norm_num [updateFaceCache]
  · simp

/-- A listed item that yielded no encoding (unreadable file, no faces,
per-item exception) leaves the rebuild accumulator unchanged: removing it
from the listing does not change the rebuilt cache. -/
theorem rebuildEntries_skip (facesDir fn : String)
    (pre post : List (String × Option Embedding)) (acc : List CacheEntry) :
    rebuildEntries facesDir (pre ++ (fn, none) :: post) acc =
      rebuildEntries facesDir (pre ++ post) acc := by
  induction pre generalizing acc with
  | nil =>
    rw [List.nil_append, List.nil_append, rebuildEntries]
    split <;> rfl
  | cons hd tl ih =>
    obtain ⟨f, r⟩ := hd
    rw [List.cons_append, List.cons_append]
    simp only [rebuildEntries]
    cases r with
    | some enc =>
      by_cases hf : isImageFile f = true
      · rw [if_pos hf, if_pos hf]
        exact ih _
      · rw [if_neg hf, if_neg hf]
        exact ih _
    | none =>
      by_cases hf : isImageFile f = true
      · rw [if_pos hf, if_pos hf]
        exact ih _
      · rw [if_neg hf, if_neg hf]
        exact ih _

/-- Claim C4, amended: once the TTL has elapsed, a total enumeration
failure leaves the store EMPTY (it was cleared before the listing ran)
with the last-refresh time not advanced; per-item read failures are
skipped without aborting the rebuild — removing a failed item from the
listing does not change the result. -/
theorem updateFaceCache_enum_failure_empties (now lastUpdate ttl : ℚ)
    (facesDir : String) (err : String) (cache : List CacheEntry)
    (hstale : ttl ≤ now - lastUpdate) :
    updateFaceCache now lastUpdate ttl facesDir true (.error err) cache =
      ([], lastUpdate) ∧
    ∀ (pre post : List (String × Option Embedding)) (fn : String),
      updateFaceCache now lastUpdate ttl facesDir true
          (.ok (pre ++ (fn, none) :: post)) cache =
        updateFaceCache now lastUpdate ttl facesDir true (.ok (pre ++ post)) cache := by
  have hn : ¬ now - lastUpdate < ttl := not_lt.mpr hstale
  constructor
  · rw [updateFaceCache, if_neg hn]
    rfl
  · intro pre post fn
    simp only [updateFaceCache, hn, if_false, Bool.not_true, Bool.false_eq_true]
    rw [rebuildEntries_skip]

/-- Witness for the amended claim C4 at a concrete stale cache. -/
theorem updateFaceCache_enum_failure_empties_witness :
    updateFaceCache 400 0 300 "./faces" true (.error "listing failed")
        [⟨"b.jpg", [1], "./faces/b.jpg"⟩] = ([], 0) :=
  (updateFaceCache_enum_failure_empties 400 0 300 "./faces" "listing failed"
    [⟨"b.jpg", [1], "./faces/b.jpg"⟩] (by norm_num)).1

/-- Characterization of the session `/register` loop: because every
per-image registration fails (the `if not encoding:` bug), the success
count is always `0`, the persisted rows are untouched, and only the
cache upserts of the detected images are applied. -/
theorem registerFaceLoop_eq (userId : Nat) (facesDir : String)
    (outcomes : List ImageOutcome) (st : EngineState) :
    registerFaceLoop userId facesDir outcomes st =
      (0, ⟨st.rows, cacheAfter facesDir outcomes st.cache⟩) := by
  induction outcomes generalizing st with
  | nil =>
    simp [registerFaceLoop, cacheAfter]
  | cons oc rest ih =>
    cases oc with
    | invalid =>
      simp [registerFaceLoop, faceServiceRegister, ih, cacheAfter]
    | detectedOnly fn enc =>
      simp [registerFaceLoop, faceServiceRegister, ih, cacheAfter]
    | processed fn enc =>
      simp [registerFaceLoop, faceServiceRegister, ih, cacheAfter]

/-- Claim C3, counterexample (the claim's own scenario: 5 images
submitted, 2 pass detection, minimum 3): the route does return the
insufficient-valid-images error and persists zero rows, but it reports
0 (not 2) successes — the `if not encoding:` bug fails every
registration — and the 2 cache upserts performed by `detect_faces`
remain: partial state from the failed batch survives, refuting the
zero-cache-upserts / no-partial-state conjunct. -/
theorem registerFaceRoute_partial_persistence_cex :
    (registerFaceRoute 7 5 "./faces"
        [.processed "a.jpg" [0], .invalid, .invalid, .invalid, .processed "b.jpg" [1]]
        ⟨[], []⟩).1 =
      .validationError ["Only 0 valid images processed, minimum 3 required"] ∧
    ((registerFaceRoute 7 5 "./faces"
        [.processed "a.jpg" [0], .invalid, .invalid, .invalid, .processed "b.jpg" [1]]
        ⟨[], []⟩).2.rows).length = 0 ∧
    ((registerFaceRoute 7 5 "./faces"
        [.processed "a.jpg" [0], .invalid, .invalid, .invalid, .processed "b.jpg" [1]]
        ⟨[], []⟩).2.cache).length = 2 := by
  refine ⟨?_, ?_, ?_⟩ <;> decide

/-- Claim C3, amended: every accepted session-route batch ends in the
insufficient-valid-images error with a success count of 0 (the
`if not encoding:` check of face_service.py line 41 rejects `None` and
raises on a real array, so no per-image registration ever succeeds) and
zero persisted rows — but the cache upserts made by `detect_faces` for
the images that passed detection are retained: partial cache state from
the failed batch remains. -/
theorem registerFaceRoute_always_insufficient (userId maxImages : Nat)
    (facesDir : String) (outcomes : List ImageOutcome) (st : EngineState)
    (h3 : 3 ≤ outcomes.length) (hmax : outcomes.length ≤ maxImages)
    (hexist : (st.rows.any fun r => r.userId == userId) = false) :
    registerFaceRoute userId maxImages facesDir outcomes st =
      (.validationError ["Only 0 valid images processed, minimum 3 required"],
       ⟨st.rows, cacheAfter facesDir outcomes st.cache⟩) := by
  have h1 : ¬ outcomes.length < 3 := by omega
  have h2 : ¬ maxImages < outcomes.length := by omega
  rw [registerFaceRoute, if_neg h1, if_neg h2, hexist, if_neg Bool.false_ne_true,
    registerFaceLoop_eq, registerFinish, if_pos (by norm_num)]
  have hs : ("Only " ++ toString (0 : Nat) ++
      " valid images processed, minimum 3 required") =
      "Only 0 valid images processed, minimum 3 required" := by decide
  simp [hs]

/-- Witness for the amended claim C3 at a concrete batch of three
images, one passing detection. -/
theorem registerFaceRoute_always_insufficient_witness :
    registerFaceRoute 7 5 "./faces"
        [.processed "p.jpg" [0], .invalid, .invalid] ⟨[], []⟩ =
      (.validationError ["Only 0 valid images processed, minimum 3 required"],
       ⟨[], cacheAfter "./faces" [.processed "p.jpg" [0], .invalid, .invalid] []⟩) :=
  registerFaceRoute_always_insufficient 7 5 "./faces"
    [.processed "p.jpg" [0], .invalid, .invalid] ⟨[], []⟩
    (by decide) (by decide) (by rfl)

/-- Claim C9: when the cache reports a match but the repository lookup by
the matched file path finds no row (deleted in the staleness window), the
route's response is EXACTLY the response of an unrecognized face — the
404 "Face not recognized" — and never a server error. -/
theorem recognizeFaceRoute_stale_lookup_not_found (m : RecognitionMatch)
    (rows : List FaceImageRow) (users : List Nat)
    (hmiss : rows.find? (fun r => r.filePath == m.filePath) = none) :
    recognizeFaceRoute (some m) rows users = recognizeFaceRoute none rows users ∧
    recognizeFaceRoute (some m) rows users = .notFoundError "Face not recognized" ∧
    ∀ msg, recognizeFaceRoute (some m) rows users ≠ .serverError msg := by
  have h1 : recognizeFaceRoute (some m) rows users =
      .notFoundError "Face not recognized" := by
    simp only [recognizeFaceRoute, serviceRecognizeFace, hmiss]
  have h0 : recognizeFaceRoute none rows users =
      .notFoundError "Face not recognized" := by
    simp only [recognizeFaceRoute, serviceRecognizeFace]
  refine ⟨h1.trans h0.symm, h1, fun msg hser => ?_⟩
  rw [h1] at hser
  exact ApiResponse.noConfusion hser

/-- Witness for claim C9 at a concrete match whose row is absent. -/
theorem recognizeFaceRoute_stale_lookup_not_found_witness :
    recognizeFaceRoute (some ⟨"x.jpg", "./faces/x.jpg", 0⟩) [] [] =
      recognizeFaceRoute none [] [] :=
  (recognizeFaceRoute_stale_lookup_not_found ⟨"x.jpg", "./faces/x.jpg", 0⟩ [] [] rfl).1
